import Mathlib

/-!
Shallow embedding of `src/language_models/trainer.py` (the repository's only
source file) and proofs about the claims of its specification.

Conventions used throughout:
* Python floats are modelled as `ℚ` wherever the code only moves values
  around; the perplexity value `np.power(2.0, loss)` is modelled in `ℝ`.
* token tensors are modelled as lists of token ids (`ℕ`); a batch of
  sequences is `Seqs = List (List ℕ)`; the model's per-timestep output
  distributions are `List (List Row)` - one list of per-example rows per
  timestep.  `_var` (tensor wrapping) preserves the token ids and is the
  identity on this representation.
* the external collaborators that the spec declares out of scope (the `LM`
  network, `nn.NLLLoss`, the optimizer's update math, numpy's rng) are
  abstracted as function parameters (`ModelFn`, `Criterion`, explicit random
  draws) or as plain data (`Optimizer` records the learning rate it was
  built with).
* fallible Python code is embedded with `Option`/`Except PyError`;
  `PyError` names the exception the interpreter would raise.
-/

/-- A batch of token sequences (one list of token ids per example). -/
abbrev Seqs : Type := List (List ℕ)

/-- One per-example output row of the model at one timestep (per-class scores). -/
abbrev Row : Type := List ℚ

/-- The `nn.NLLLoss()` criterion (external collaborator, constructed at line 50
of the source and never nulled): given the selected output rows and the
selected target token ids, returns a scalar loss. -/
abbrev Criterion : Type := List Row → List ℕ → ℚ

/-- Exceptions raised by the embedded Python code. -/
inductive PyError where
  /-- `AttributeError: 'NoneType' object has no attribute attr` -/
  | attributeErrorNone (attr : String)
  /-- `AttributeError` on a non-`None` object (e.g. `str` has no `parameters`) -/
  | attributeError (attr : String)
  /-- `TypeError: 'NoneType' object is not subscriptable` (`self.params[...]` with `params = None`) -/
  | typeErrorNoneSubscript
  /-- `TypeError` from `'%s/%s' & (...)` at line 157: `&` is unsupported between `str` and `tuple` -/
  | typeErrorStrAnd
  /-- `TypeError: exceptions must derive from BaseException` - `raise` of a plain string (lines 102, 129) -/
  | typeErrorRaiseStr (msg : String)
  /-- `_var(None)`: building a `torch.LongTensor` from `None` -/
  | typeErrorVarNone
  /-- `map(_var, None)`: `None` is not iterable -/
  | typeErrorMapNone
  /-- `UnboundLocalError` / `NameError`: a loop-local name evaluated before assignment -/
  | nameError (n : String)
  /-- tuple unpacking arity mismatch -/
  | valueErrorUnpack
  /-- `IndexError`: indexing past the end of a sequence -/
  | indexError
deriving DecidableEq

/-- Classifies the errors that correspond to dereferencing a `None` field
(attribute access or subscripting on `None`). -/
def isNoneDereference : PyError → Bool
  | PyError.attributeErrorNone _ => true
  | PyError.typeErrorNoneSubscript => true
  | _ => false

/-- Numpy boolean-mask selection `xs[mask]`: keep the entries of `xs` whose
mask entry is `true`. -/
def maskSelect (mask : List Bool) (xs : List α) : List α :=
  ((mask.zip xs).filter (fun p => p.1)).map (fun p => p.2)

/-- One accumulation step of `_batch_loss` (lines 181-182 of the source):
with remaining lengths `l`, the active mask is `l > 0`; the criterion is
applied to `outputs[idx][mask]` and `targets[mask, idx]`.  Indexing past the
end of `outputs`, or past the end of a target row, yields `none`
(an `IndexError` in Python). -/
def lossTerm (criterion : Criterion) (outputs : List (List Row))
    (targets : List (List ℕ)) (l : List ℤ) (idx : ℕ) : Option ℚ := do
  let idxes := l.map (fun x => decide (0 < x))
  let out_t ← outputs.get? idx
  let selOut := maskSelect idxes out_t
  let selTgt ← (maskSelect idxes targets).mapM (fun row => row.get? idx)
  pure (criterion selOut selTgt)

/-- The accumulation loop shared by the code's `_batch_loss` and the spec's
reference definition: one `lossTerm` step per entry of the driving list
`steps` (so `steps` only fixes the number of iterations), with the step index
starting at `idx` and the remaining-length vector `l` decremented by 1 for
all examples after each step (`l -= 1`, line 183). -/
def lossLoop {α : Type} (criterion : Criterion) (outputs : List (List Row))
    (targets : List (List ℕ)) : List α → ℕ → List ℤ → Option ℚ
  | [], _, _ => pure 0
  | _ :: steps, idx, l => do
    let t ← lossTerm criterion outputs targets l idx
    let r ← lossLoop criterion outputs targets steps (idx + 1) (l.map (fun x => x - 1))
    pure (t + r)

/-- `_batch_loss` (lines 177-184).  The loop `for idx in range(len(target_lengths))`
runs once per entry of `target_lengths` (i.e. once per batch example), and the
final division is by `len(outputs)` (the number of output timesteps).  An empty
`outputs` makes the division (`0 / 0`) or the first indexing step fail. -/
def batch_loss (criterion : Criterion) (outputs : List (List Row))
    (target_lengths : List ℤ) (targets : List (List ℕ)) : Option ℚ := do
  let s ← lossLoop criterion outputs targets target_lengths 0 target_lengths
  if outputs.length = 0 then none
  else pure (s / (outputs.length : ℚ))

/-- Modelled from the spec: the reference masked-NLL definition of section 4.3
and claim C1 - one step per available output timestep (so the loop is driven
by `outputs` and runs `len(outputs)` times), at each timestep accumulating the
criterion over the examples whose remaining length is strictly positive,
decrementing all remaining lengths by 1 after each step, and dividing the
accumulated sum by the number of output timesteps. -/
def specMaskedLoss (criterion : Criterion) (outputs : List (List Row))
    (answer_lengths : List ℤ) (targets : List (List ℕ)) : Option ℚ := do
  let s ← lossLoop criterion outputs targets outputs 0 answer_lengths
  if outputs.length = 0 then none
  else pure (s / (outputs.length : ℚ))

/-- A concrete criterion used in counterexamples: counts the selected rows. -/
def critCnt : Criterion := fun sel _ => (sel.length : ℚ)

/-- A concrete criterion that is constantly zero. -/
def critZero : Criterion := fun _ _ => 0

/-- Concrete outputs with 2 timesteps of 3 rows each (used by C8). -/
def outsC8 : List (List Row) := [[[0], [0], [0]], [[0], [0], [0]]]

/-- Concrete 3-by-3 target matrix (used by C8). -/
def tgtsC8 : List (List ℕ) := [[0, 0, 0], [0, 0, 0], [0, 0, 0]]

/-- Concrete outputs with 2 timesteps of 2 rows each (used by the C1 witness). -/
def outsW : List (List Row) := [[[0], [0]], [[0], [0]]]

/-- Concrete 2-by-2 target matrix (used by the C1 witness). -/
def tgtsW : List (List ℕ) := [[0, 0], [0, 0]]

/-- Modelled from the spec: the model-variant constants `C.LM_ANSWERS`,
`C.LM_QUESTION_ANSWERS` and `C.LM_QUESTION_ANSWERS_REVIEWS` of the missing
`constants` module, which section 3 of the spec describes as a tagged enum of
the three supported input configurations (three distinct tag values). -/
inductive ModelVariant where
  | LM_ANSWERS
  | LM_QUESTION_ANSWERS
  | LM_QUESTION_ANSWERS_REVIEWS
deriving DecidableEq

/-- The values the `self.model` attribute can hold.  In the source the same
attribute is compared against the variant constants (lines 67-68, 95-100,
122-133) and called as the network (line 73); the constructor sets it to an
`LM` instance (line 38) and then to `None` (line 52).  `pyNone` is Python's
`None`, `lmObject` an `LM` network instance, and `const v` one of the variant
constants - the last so that the dispatch claims can be stated for each
configured variant. -/
inductive ModelSlot where
  | pyNone
  | lmObject
  | const (v : ModelVariant)
deriving DecidableEq

/-- How `'%s' % self.model` renders the slot value (message text only). -/
def modelSlotStr : ModelSlot → String
  | ModelSlot.pyNone => "None"
  | ModelSlot.lmObject => "LM object"
  | ModelSlot.const ModelVariant.LM_ANSWERS => "LM_ANSWERS"
  | ModelSlot.const ModelVariant.LM_QUESTION_ANSWERS => "LM_QUESTION_ANSWERS"
  | ModelSlot.const ModelVariant.LM_QUESTION_ANSWERS_REVIEWS => "LM_QUESTION_ANSWERS_REVIEWS"

/-- The hyperparameter mapping (`params` dict).  Field names follow the
constant keys of the missing `constants` module used by the source
(`C.VOCAB_SIZE`, `C.HDIM`, `C.OUTPUT_MAX_LEN`, `C.H_LAYERS`, `C.DROPOUT`,
`C.LR`, `C.LR_DECAY`, `C.DECAY_START_EPOCH`, `C.TEACHER_FORCING_RATIO`,
`C.EPOCHS`, `C.MODEL_NAME`). -/
structure Params where
  vocab_size : ℕ
  hdim : ℕ
  output_max_len : ℕ
  h_layers : ℕ
  dropout : ℚ
  lr : ℚ
  lr_decay : ℚ
  decay_start_epoch : ℕ
  teacher_forcing_prob : ℚ
  epochs : ℕ
  model_name : String
deriving DecidableEq

/-- The SGD optimizer, recorded by the learning rate it was constructed with
(its parameter-update math is an external collaborator). -/
structure Optimizer where
  lr : ℚ
deriving DecidableEq

/-- The pickled vocabulary object (opaque). -/
abbrev Vocab : Type := List String

/-- One batch yielded by the data loader, in one of the three shapes of
section 3 of the spec: `(answer_seqs, answer_lengths)`,
`((answer_seqs, answer_lengths), quesion_seqs)` or
`((answer_seqs, answer_lengths), quesion_seqs, review_seqs)`.
(The misspelling `quesion` is the source's.) -/
inductive Inputs where
  | ao (answer_seqs : Seqs) (answer_lengths : List ℤ)
  | qa (answer_seqs : Seqs) (answer_lengths : List ℤ) (quesion_seqs : Seqs)
  | qar (answer_seqs : Seqs) (answer_lengths : List ℤ) (quesion_seqs : Seqs)
      (review_seqs : List Seqs)
deriving DecidableEq

/-- The trainer's attributes after `__init__` (lines 23-56).  `criterion` is
the external `nn.NLLLoss` and is passed separately to the functions that use
it.  There is no `dev_loader` field: `__init__` accepts the argument but
never stores it. -/
structure TrainerState where
  save_model_every : ℕ
  print_every : ℕ
  params : Option Params
  dataloader : List Inputs
  vocab : Option Vocab
  model : ModelSlot
  loss : List ℚ
  perplexity : List ℝ
  optimizer : Option Optimizer
  vocabs : Option Unit

/-- `Trainer.__init__` (lines 23-56): after seeding the rngs (external), the
constructor stores the arguments and builds the `LM` network (lines 33-46)
and the empty histories (lines 48-49), and then overwrites `self.model`,
`self.optimizer` and `self.params` with `None` (lines 52-54; line 56 sets the
separate, misspelled attribute `self.vocabs`, so `self.vocab` from line 37
survives).  The `dev_loader` argument is never stored. -/
def trainerInit (dataloader : List Inputs) (params : Params) (random_seed : ℕ)
    (save_model_every : ℕ) (print_every : ℕ) (dev_loader : Option (List Inputs))
    (vocab : Option Vocab) : TrainerState :=
  let st0 : TrainerState :=
    { save_model_every := save_model_every
      print_every := print_every
      params := some params
      dataloader := dataloader
      vocab := vocab
      model := ModelSlot.lmObject
      loss := []
      perplexity := []
      optimizer := none
      vocabs := none }
  { st0 with
      model := ModelSlot.pyNone
      optimizer := none
      params := none
      vocabs := none }

/-- `Trainer._set_optimizer` (lines 170-171):
`self.optimizer = optim.SGD(self.model.parameters(), lr=self.params[C.LR] * lr_decay)`.
Python evaluates `self.model.parameters()` first (an `AttributeError` when the
slot holds `None` or a string constant), then `self.params[C.LR]` (a
`TypeError` when `params` is `None`).  The method body ends without `return`,
so its Python return value is `None` - modelled by the second component. -/
def set_optimizer (st : TrainerState) (lr_decay : ℚ) :
    Except PyError (TrainerState × Option Optimizer) :=
  match st.model with
  | ModelSlot.pyNone => Except.error (PyError.attributeErrorNone "parameters")
  | ModelSlot.const _ => Except.error (PyError.attributeError "parameters")
  | ModelSlot.lmObject =>
    match st.params with
    | none => Except.error PyError.typeErrorNoneSubscript
    | some p => Except.ok ({ st with optimizer := some ⟨p.lr * lr_decay⟩ }, none)

/-- The decay branch of `Trainer.train` (lines 116-117):
`self.optimizer = self._set_optimizer(lr_decay=self.params[C.LR_DECAY])`.
The keyword argument `self.params[C.LR_DECAY]` is evaluated first, then
`_set_optimizer` runs (storing the decayed optimizer), and finally the
method's `None` return value is assigned back to `self.optimizer`. -/
def decayBranch (st : TrainerState) : Except PyError TrainerState :=
  match st.params with
  | none => Except.error PyError.typeErrorNoneSubscript
  | some p =>
    match set_optimizer st p.lr_decay with
    | Except.error e => Except.error e
    | Except.ok (st1, ret) => Except.ok { st1 with optimizer := ret }

/-- The loop-local names bound by one round of the batch-decomposition
`if`/`elif` chain.  `none` for `quesion_seqs`/`review_seqs` means the name
was *not assigned* in the branch that ran (evaluating it later raises
`UnboundLocalError`); no branch of the source assigns `None` to either name,
so the encoding is unambiguous. -/
structure Binding where
  answer_seqs : Seqs
  answer_lengths : List ℤ
  quesion_seqs : Option Seqs
  review_seqs : Option (List Seqs)
deriving DecidableEq

/-- The batch decomposition of the epoch loop, `Trainer.train` lines 95-102.
Line 99 of the source repeats the `self.model == C.LM_QUESTION_ANSWERS` test
instead of testing `C.LM_QUESTION_ANSWERS_REVIEWS`, so the third branch (the
only one unpacking `review_seqs`) is unreachable and that variant falls
through to `raise 'Unimplemented model: %s' % self.model` - in Python 3 a
`TypeError`, since only `BaseException`s can be raised.  A batch whose shape
does not fit the branch's unpacking raises a `ValueError`. -/
def decomposeTrain (m : ModelSlot) (inputs : Inputs) : Except PyError Binding :=
  if m = ModelSlot.const ModelVariant.LM_ANSWERS then
    match inputs with
    | Inputs.ao a l => Except.ok ⟨a, l, none, none⟩
    | _ => Except.error PyError.valueErrorUnpack
  else if m = ModelSlot.const ModelVariant.LM_QUESTION_ANSWERS then
    match inputs with
    | Inputs.qa a l q => Except.ok ⟨a, l, some q, none⟩
    | _ => Except.error PyError.valueErrorUnpack
  else if m = ModelSlot.const ModelVariant.LM_QUESTION_ANSWERS then
    match inputs with
    | Inputs.qar a l q r => Except.ok ⟨a, l, some q, some r⟩
    | _ => Except.error PyError.valueErrorUnpack
  else
    Except.error (PyError.typeErrorRaiseStr ("Unimplemented model: " ++ modelSlotStr m))

/-- The batch decomposition of the evaluation loop, `Trainer.eval` lines
122-129 - a verbatim duplicate of the one in `Trainer.train`, including the
repeated `C.LM_QUESTION_ANSWERS` test at line 126. -/
def decomposeEval (m : ModelSlot) (inputs : Inputs) : Except PyError Binding :=
  if m = ModelSlot.const ModelVariant.LM_ANSWERS then
    match inputs with
    | Inputs.ao a l => Except.ok ⟨a, l, none, none⟩
    | _ => Except.error PyError.valueErrorUnpack
  else if m = ModelSlot.const ModelVariant.LM_QUESTION_ANSWERS then
    match inputs with
    | Inputs.qa a l q => Except.ok ⟨a, l, some q, none⟩
    | _ => Except.error PyError.valueErrorUnpack
  else if m = ModelSlot.const ModelVariant.LM_QUESTION_ANSWERS then
    match inputs with
    | Inputs.qar a l q r => Except.ok ⟨a, l, some q, some r⟩
    | _ => Except.error PyError.valueErrorUnpack
  else
    Except.error (PyError.typeErrorRaiseStr ("Unimplemented model: " ++ modelSlotStr m))

/-- The arguments of one invocation `self.model(quesion_seqs, review_seqs,
answer_seqs, teacher_forcing)` of the model collaborator. -/
structure ModelCall where
  quesion_seqs : Option Seqs
  review_seqs : Option (List Seqs)
  answer_seqs : Seqs
  teacher_forcing : Bool
deriving DecidableEq

/-- The external sequence model (`LM`): from the three (optional) inputs and
the teacher-forcing flag to per-timestep output rows; the source discards the
call's second and third results (line 73: `outputs, _, _ = ...`). -/
abbrev ModelFn : Type :=
  Option Seqs → Option (List Seqs) → Seqs → Bool → List (List Row)

/-- `Trainer.train_batch` (lines 58-87): zero the gradients
(`self.optimizer.zero_grad()` - an `AttributeError` on a fresh trainer whose
`optimizer` is `None`), select the model inputs per variant (lines 67-68:
`quesion_seqs = None if self.model == C.LM_ANSWERS else _var(quesion_seqs)`,
`review_seqs = map(_var, review_seqs) if self.model == C.LM_QUESTION_ANSWERS_REVIEWS else None`),
draw teacher forcing from `self.params[C.TEACHER_FORCING_RATIO]` (line 72),
invoke the model, compute `_batch_loss` against `target_seqs = _var(answer_seqs)`
(lines 69, 81), backpropagate and step the optimizer (external), and return
the scalar loss.  The result records the model invocation and the loss. -/
def train_batch (criterion : Criterion) (modelFn : ModelFn) (rand : ℚ)
    (st : TrainerState) (quesion_seqs : Option Seqs) (review_seqs : Option (List Seqs))
    (answer_seqs : Seqs) (answer_lengths : List ℤ) :
    Except PyError (ModelCall × ℚ) :=
  match st.optimizer with
  | none => Except.error (PyError.attributeErrorNone "zero_grad")
  | some _ =>
    match
      (if st.model = ModelSlot.const ModelVariant.LM_ANSWERS then Except.ok none
       else match quesion_seqs with
         | none => Except.error PyError.typeErrorVarNone
         | some q => Except.ok (some q) : Except PyError (Option Seqs))
    with
    | Except.error e => Except.error e
    | Except.ok q =>
      match
        (if st.model = ModelSlot.const ModelVariant.LM_QUESTION_ANSWERS_REVIEWS then
           match review_seqs with
           | none => Except.error PyError.typeErrorMapNone
           | some r => Except.ok (some r)
         else Except.ok none : Except PyError (Option (List Seqs)))
      with
      | Except.error e => Except.error e
      | Except.ok r =>
        match st.params with
        | none => Except.error PyError.typeErrorNoneSubscript
        | some p =>
          let tf := decide (rand < p.teacher_forcing_prob)
          let outputs := modelFn q r answer_seqs tf
          match batch_loss criterion outputs answer_lengths answer_seqs with
          | none => Except.error PyError.indexError
          | some loss => Except.ok (⟨q, r, answer_seqs, tf⟩, loss)

/-- The inner batch loop of one training epoch (`Trainer.train` lines
94-113): decompose each batch per variant, call
`self.train_batch(quesion_seqs, review_seqs, answer_seqs, answer_lengths)`
(line 103-108; evaluating a name the branch did not bind raises
`UnboundLocalError` - `quesion_seqs` in the `LM_ANSWERS` branch,
`review_seqs` in the `LM_QUESTION_ANSWERS` branch), and append the returned
loss and `_perplexity_from_loss(loss)` to the running histories (lines
109-110).  Returns the updated trainer state, the number of batches whose
optimization step completed, and the exception that aborted the loop, if
any.  The per-batch prints (lines 111-113) are presentation only and not
modelled. -/
def trainGo (pplFn : ℚ → ℝ) (criterion : Criterion) (modelFn : ModelFn)
    (rands : ℕ → ℚ) : List Inputs → ℕ → TrainerState → ℕ →
    TrainerState × ℕ × Option PyError
  | [], _, st, n => (st, n, none)
  | b :: bs, i, st, n =>
    match decomposeTrain st.model b with
    | Except.error e => (st, n, some e)
    | Except.ok bind =>
      match bind.quesion_seqs with
      | none => (st, n, some (PyError.nameError "quesion_seqs"))
      | some q =>
        match bind.review_seqs with
        | none => (st, n, some (PyError.nameError "review_seqs"))
        | some r =>
          match train_batch criterion modelFn (rands i) st (some q) (some r)
              bind.answer_seqs bind.answer_lengths with
          | Except.error e => (st, n, some e)
          | Except.ok (_, loss) =>
            trainGo pplFn criterion modelFn rands bs (i + 1)
              { st with
                  loss := st.loss ++ [loss]
                  perplexity := st.perplexity ++ [pplFn loss] }
              (n + 1)

/-- One epoch's batch loop, started the way `Trainer.train` starts it. -/
def trainOneEpoch (pplFn : ℚ → ℝ) (criterion : Criterion) (modelFn : ModelFn)
    (rands : ℕ → ℚ) (st : TrainerState) (batches : List Inputs) :
    TrainerState × ℕ × Option PyError :=
  trainGo pplFn criterion modelFn rands batches 0 st 0

/-- What one round of `Trainer.eval`'s loop does after the decomposition
(lines 131-142): rebuild the model inputs per variant - here the variant
conditionals are conditional *expressions*, so an unbound name is only
evaluated (and only raises) when its branch is taken - invoke the model with
teacher forcing hard-coded to `False` (line 139), and compute `_batch_loss`.
No optimizer is touched anywhere in `eval`. -/
def evalStep (criterion : Criterion) (modelFn : ModelFn) (m : ModelSlot)
    (b : Binding) : Except PyError (ModelCall × ℚ) :=
  match
    (if m = ModelSlot.const ModelVariant.LM_ANSWERS then Except.ok none
     else match b.quesion_seqs with
       | none => Except.error (PyError.nameError "quesion_seqs")
       | some q => Except.ok (some q) : Except PyError (Option Seqs))
  with
  | Except.error e => Except.error e
  | Except.ok q =>
    match
      (if m = ModelSlot.const ModelVariant.LM_QUESTION_ANSWERS_REVIEWS then
         match b.review_seqs with
         | none => Except.error (PyError.nameError "review_seqs")
         | some r => Except.ok (some r)
       else Except.ok none : Except PyError (Option (List Seqs)))
    with
    | Except.error e => Except.error e
    | Except.ok r =>
      let outputs := modelFn q r b.answer_seqs false
      match batch_loss criterion outputs b.answer_lengths b.answer_seqs with
      | none => Except.error PyError.indexError
      | some loss => Except.ok (⟨q, r, b.answer_seqs, false⟩, loss)

/-- The observable trace of one `Trainer.eval` run: the model invocations,
the `dev_losses` and `dev_perplexities` lists (lines 120, 143-144), and
whether the final `_print_info` over their means (line 148) was reached. -/
structure EvalTrace where
  calls : List ModelCall
  dev_losses : List ℚ
  dev_perplexities : List ℝ
  print_info : Bool

/-- The batch loop of `Trainer.eval` (lines 121-147): decompose each batch of
`self.dataloader`, run `evalStep`, and append the loss and
`_perplexity_from_loss(loss)` to the dev lists. -/
def evalGo (pplFn : ℚ → ℝ) (criterion : Criterion) (modelFn : ModelFn)
    (m : ModelSlot) : List Inputs → EvalTrace → EvalTrace × Option PyError
  | [], tr => (tr, none)
  | b :: bs, tr =>
    match decomposeEval m b with
    | Except.error e => (tr, some e)
    | Except.ok bind =>
      match evalStep criterion modelFn m bind with
      | Except.error e => (tr, some e)
      | Except.ok (call, loss) =>
        evalGo pplFn criterion modelFn m bs
          { calls := tr.calls ++ [call]
            dev_losses := tr.dev_losses ++ [loss]
            dev_perplexities := tr.dev_perplexities ++ [pplFn loss]
            print_info := tr.print_info }

/-- `Trainer.eval` (lines 119-149): iterate `self.dataloader` - the training
loader; the constructor's `dev_loader` argument was never stored - starting
from empty dev lists, and on completing the loop log the means of the two
lists via `_print_info` (line 148).  An exception aborts the run before the
final log. -/
def evalRun (pplFn : ℚ → ℝ) (criterion : Criterion) (modelFn : ModelFn)
    (st : TrainerState) : EvalTrace × Option PyError :=
  match evalGo pplFn criterion modelFn st.model st.dataloader ⟨[], [], [], false⟩ with
  | (tr, none) => ({ tr with print_info := true }, none)
  | (tr, some e) => (tr, some e)

/-- `np.mean` of a list of rationals (used for the final `_print_info`). -/
def listMeanQ (xs : List ℚ) : ℚ := xs.sum / (xs.length : ℚ)

/-- `_perplexity_from_loss` (lines 190-191): `np.power(2.0, loss)`, i.e. 2
raised to the loss value. -/
noncomputable def perplexity_from_loss (loss : ℚ) : ℝ := (2 : ℝ) ^ (loss : ℝ)

/-- The file system visible to `save_model`: the set of existing directories
and the files written (path paired with an opaque content tag). -/
structure FileSys where
  dirs : List String
  files : List (String × String)
deriving DecidableEq

/-- `_ensure_path` (lines 186-188): `os.makedirs(path)` when the path does
not exist yet. -/
def ensure_path (p : String) (fs : FileSys) : FileSys :=
  if p ∈ fs.dirs then fs else { fs with dirs := p :: fs.dirs }

/-- `Trainer._save_dir` (lines 166-168):
`'%s/%s/%s' % (C.BASE_PATH, self.params[C.MODEL_NAME], time_str)`; reading
`self.params[C.MODEL_NAME]` on a fresh trainer (where `params` is `None`)
raises a `TypeError`. -/
def save_dir (st : TrainerState) (base_path : String) (time_str : String) :
    Except PyError String :=
  match st.params with
  | none => Except.error PyError.typeErrorNoneSubscript
  | some p => Except.ok (base_path ++ "/" ++ p.model_name ++ "/" ++ time_str)

/-- `Trainer.save_model` (lines 151-164): build the timestamped directory,
create it if absent, and format the three artifact file names.  Line 157
reads `vocab_filename = '%s/%s' & (save_dir, C.SAVED_VOCAB_FILENAME)` - the
operator is `&`, not `%`, which raises
`TypeError: unsupported operand type(s) for &: 'str' and 'tuple'` - so the
three writes (lines 159-164: `torch.save` of the weights, `json.dump` of the
params with `indent=4, sort_keys=True`, `pickle.dump` of the vocabulary) are
unreachable and no file is ever written.  Returns the file system after the
call together with the exception, if any. -/
def save_model (st : TrainerState) (base_path : String)
    (saved_model_filename : String) (saved_params_filename : String)
    (saved_vocab_filename : String) (time_str : String) (fs : FileSys) :
    FileSys × Option PyError :=
  match save_dir st base_path time_str with
  | Except.error e => (fs, some e)
  | Except.ok dir =>
    let fs1 := ensure_path dir fs
    let _model_filename := dir ++ "/" ++ saved_model_filename
    let _params_filename := dir ++ "/" ++ saved_params_filename
    (fs1, some PyError.typeErrorStrAnd)

/-- A concrete params fixture. -/
def paramsW : Params :=
  { vocab_size := 100, hdim := 8, output_max_len := 4, h_layers := 1,
    dropout := 0, lr := 1 / 10, lr_decay := 1 / 2, decay_start_epoch := 2,
    teacher_forcing_prob := 1 / 2, epochs := 3, model_name := "lm" }

/-- A concrete working trainer state (the fields a usable trainer would
have, for exercising the branches that a fresh trainer's nulled fields would
mask). -/
def stW : TrainerState :=
  { save_model_every := 1, print_every := 100, params := some paramsW,
    dataloader := [], vocab := none, model := ModelSlot.lmObject,
    loss := [], perplexity := [], optimizer := some ⟨1 / 10⟩, vocabs := none }

/-- A working trainer state configured for the answers-only variant. -/
def stAO : TrainerState :=
  { stW with model := ModelSlot.const ModelVariant.LM_ANSWERS }

/-- A working answers-only state whose training loader holds two batches. -/
def stE : TrainerState :=
  { stAO with dataloader := [Inputs.ao [[0]] [1], Inputs.ao [[1]] [1]] }

/-- A trainer state whose model slot holds a value that is none of the three
variant constants. -/
def stC9 : TrainerState := stW

/-- A concrete model collaborator: one timestep with a single output row. -/
def modelFnOne : ModelFn := fun _ _ _ _ => [[[0]]]

/-- A fresh trainer as `__init__` leaves it, over a one-batch loader. -/
def st0 : TrainerState :=
  trainerInit [Inputs.ao [[0]] [1]] paramsW 1 1 100 none none

/-- The accumulation loop depends on the driving list only through its
length. -/
theorem lossLoop_congr_length {α β : Type} (criterion : Criterion)
    (outputs : List (List Row)) (targets : List (List ℕ)) :
    ∀ (xs : List α) (ys : List β), xs.length = ys.length →
      ∀ (idx : ℕ) (l : List ℤ),
        lossLoop criterion outputs targets xs idx l
          = lossLoop criterion outputs targets ys idx l
  | [], [], _, _, _ => rfl
  | [], _ :: _, h, _, _ => by simp at h
  | _ :: _, [], h, _, _ => by simp at h
  | _ :: xs, _ :: ys, h, idx, l => by
    simp only [List.length_cons, Nat.succ.injEq] at h
    simp only [lossLoop]
    rw [lossLoop_congr_length criterion outputs targets xs ys h (idx + 1)
      (l.map (fun x => x - 1))]

/-- C1 (counterexample): with one example of answer length 2 but two output
timesteps, `_batch_loss` (one loop step per example) differs from the
reference masked-NLL definition (one step per timestep): the code accumulates
one criterion term and divides by 2, the reference accumulates two active
terms and divides by 2. -/
theorem c1_counterexample :
    batch_loss critCnt [[[(0 : ℚ)]], [[(0 : ℚ)]]] [2] [[0, 0]]
      ≠ specMaskedLoss critCnt [[[(0 : ℚ)]], [[(0 : ℚ)]]] [2] [[0, 0]] := by
  simp [batch_loss, specMaskedLoss, lossLoop, lossTerm, maskSelect, critCnt,
    List.mapM, List.mapM.loop, List.get?]

/-- C1 (amended): whenever the number of batch examples (`len(target_lengths)`)
equals the number of output timesteps (`len(outputs)`), `_batch_loss` computes
exactly the reference masked-NLL value; in general the code iterates one step
per batch example rather than one step per output timestep. -/
theorem c1_loop_bounds (criterion : Criterion) (outputs : List (List Row))
    (target_lengths : List ℤ) (targets : List (List ℕ))
    (h : target_lengths.length = outputs.length) :
    batch_loss criterion outputs target_lengths targets
      = specMaskedLoss criterion outputs target_lengths targets := by
  unfold batch_loss specMaskedLoss
  rw [lossLoop_congr_length criterion outputs targets target_lengths outputs h]

/-- C1 (witness): a batch of two examples with two output timesteps satisfies
the hypothesis of `c1_loop_bounds`, and the two loss definitions agree on it. -/
theorem c1_loop_bounds_witness :
    ([(1 : ℤ), 1].length = outsW.length)
    ∧ batch_loss critCnt outsW [1, 1] tgtsW = specMaskedLoss critCnt outsW [1, 1] tgtsW :=
  ⟨by simp [outsW], c1_loop_bounds critCnt outsW [1, 1] tgtsW (by simp [outsW])⟩

/-- C8: with `answer_lengths = [3, 2, 1]` (a target length of 3 exceeds the 2
available output timesteps) the loop of `_batch_loss` runs 3 times and
evaluates `outputs[2]`, which is out of range (an `IndexError`), while the
reference masked-NLL definition on the same batch is well defined. -/
theorem c8_output_index_overrun :
    batch_loss critCnt outsC8 [3, 2, 1] tgtsC8 = none
    ∧ specMaskedLoss critCnt outsC8 [3, 2, 1] tgtsC8 = some (5 / 2) := by
  constructor
  · simp [batch_loss, outsC8, tgtsC8, lossLoop, lossTerm, maskSelect, critCnt,
      List.mapM, List.mapM.loop, List.get?]
  · simp [specMaskedLoss, outsC8, tgtsC8, lossLoop, lossTerm, maskSelect, critCnt,
      List.mapM, List.mapM.loop, List.get?]
    norm_num

/-- C2: at the decay epoch, `_set_optimizer` stores an optimizer whose rate
is the configured learning rate times the decay factor (0.1 * 0.5 = 0.05,
not cumulative) and returns Python's `None`; line 117 then assigns that
`None` return value back to `self.optimizer`, so after the decay branch the
trainer holds no optimizer at all. -/
theorem c2_decay_overwrite :
    set_optimizer stW (1 / 2)
      = Except.ok ({ stW with optimizer := some ⟨1 / 20⟩ }, none)
    ∧ decayBranch stW = Except.ok { stW with optimizer := none } := by
  constructor
  · simp only [set_optimizer, stW, paramsW]
    norm_num
  · simp only [decayBranch, set_optimizer, stW, paramsW]

/-- C3: under the `LM_QUESTION_ANSWERS_REVIEWS` variant the epoch loop's
batch decomposition never binds the review sequences - line 99 repeats the
`LM_QUESTION_ANSWERS` test, so a reviews-shaped batch falls through to the
string `raise` - while under `LM_ANSWERS` a direct `train_batch` call does
invoke the model with both the question and the review argument absent
(`None`). -/
theorem c3_variant_dispatch :
    decomposeTrain (ModelSlot.const ModelVariant.LM_QUESTION_ANSWERS_REVIEWS)
        (Inputs.qar [[0]] [1] [[2]] [[[3]]])
      = Except.error
          (PyError.typeErrorRaiseStr "Unimplemented model: LM_QUESTION_ANSWERS_REVIEWS")
    ∧ train_batch critZero modelFnOne 1 stAO (some [[2]]) (some [[[3]]]) [[0]] [1]
      = Except.ok (⟨none, none, [[0]], false⟩, 0) := by
  constructor
  · rfl
  · simp [train_batch, stAO, stW, paramsW, batch_loss, lossLoop, lossTerm, maskSelect,
      critZero, modelFnOne, List.mapM, List.mapM.loop, List.get?]
    norm_num

/-- The dev-perplexity list built by the evaluation loop is always the
pointwise image of the dev-loss list under the perplexity function. -/
theorem evalGo_perplexity_map (pplFn : ℚ → ℝ) (criterion : Criterion)
    (modelFn : ModelFn) (m : ModelSlot) :
    ∀ (bs : List Inputs) (tr : EvalTrace),
      tr.dev_perplexities = tr.dev_losses.map pplFn →
      ((evalGo pplFn criterion modelFn m bs tr).1).dev_perplexities
        = ((evalGo pplFn criterion modelFn m bs tr).1).dev_losses.map pplFn
  | [], _, h => h
  | b :: bs, tr, h => by
    rw [evalGo]
    split
    · simpa using h
    · split
      · simpa using h
      · exact evalGo_perplexity_map pplFn criterion modelFn m bs _
          (by simp [h, List.map_append])

/-- The running perplexity history built by the training loop is always the
pointwise image of the running loss history under the perplexity function. -/
theorem trainGo_perplexity_map (pplFn : ℚ → ℝ) (criterion : Criterion)
    (modelFn : ModelFn) (rands : ℕ → ℚ) :
    ∀ (bs : List Inputs) (i : ℕ) (st : TrainerState) (n : ℕ),
      st.perplexity = st.loss.map pplFn →
      ((trainGo pplFn criterion modelFn rands bs i st n).1).perplexity
        = ((trainGo pplFn criterion modelFn rands bs i st n).1).loss.map pplFn
  | [], _, _, _, h => h
  | b :: bs, i, st, n, h => by
    rw [trainGo]
    split
    · simpa using h
    · split
      · simpa using h
      · split
        · simpa using h
        · split
          · simpa using h
          · exact trainGo_perplexity_map pplFn criterion modelFn rands bs (i + 1) _ (n + 1)
              (by simp [h, List.map_append])

/-- C4: `_perplexity_from_loss` is exactly 2 raised to the loss value, every
dev perplexity recorded by `eval` is `2^loss` of the dev loss recorded with
it, and the training loop's running perplexity history is the pointwise
`2^loss` image of its running loss history (starting from a freshly
constructed trainer, whose histories are empty). -/
theorem c4_perplexity_pow :
    (∀ loss : ℚ, perplexity_from_loss loss = (2 : ℝ) ^ ((loss : ℚ) : ℝ))
    ∧ (∀ (criterion : Criterion) (modelFn : ModelFn) (st : TrainerState),
        ((evalRun perplexity_from_loss criterion modelFn st).1).dev_perplexities
          = ((evalRun perplexity_from_loss criterion modelFn st).1).dev_losses.map
              perplexity_from_loss)
    ∧ (∀ (criterion : Criterion) (modelFn : ModelFn) (rands : ℕ → ℚ)
        (dl batches : List Inputs) (params : Params) (seed sme pe : ℕ)
        (devl : Option (List Inputs)) (vocab : Option Vocab),
        ((trainOneEpoch perplexity_from_loss criterion modelFn rands
            (trainerInit dl params seed sme pe devl vocab) batches).1).perplexity
          = ((trainOneEpoch perplexity_from_loss criterion modelFn rands
              (trainerInit dl params seed sme pe devl vocab) batches).1).loss.map
              perplexity_from_loss) := by
  refine ⟨fun _ => rfl, ?_, ?_⟩
  · intro criterion modelFn st
    have h := evalGo_perplexity_map perplexity_from_loss criterion modelFn st.model
      st.dataloader ⟨[], [], [], false⟩ (by simp)
    unfold evalRun
    cases he : evalGo perplexity_from_loss criterion modelFn st.model st.dataloader
        ⟨[], [], [], false⟩ with
    | mk tr err =>
      rw [he] at h
      cases err <;> simpa using h
  · intro criterion modelFn rands dl batches params seed sme pe devl vocab
    exact trainGo_perplexity_map perplexity_from_loss criterion modelFn rands batches 0
      (trainerInit dl params seed sme pe devl vocab) 0 (by simp [trainerInit])

/-- C5: `save_model` creates the timestamped directory (and `_ensure_path`
is idempotent), but the `&` typo at line 157 raises a `TypeError` before any
of the three artifacts is written: the resulting file system holds the new
directory and no file at all. -/
theorem c5_save_model_crash :
    save_model stW "saved_models" "model.pt" "params.json" "vocab.pkl"
        "2020-01-01-00-00-00" ⟨[], []⟩
      = (⟨["saved_models/lm/2020-01-01-00-00-00"], []⟩, some PyError.typeErrorStrAnd)
    ∧ (∀ (p : String) (fs : FileSys), ensure_path p (ensure_path p fs) = ensure_path p fs) := by
  constructor
  · rfl
  · intro p fs
    by_cases h : p ∈ fs.dirs
    · simp [ensure_path, h]
    · simp [ensure_path, h]

/-- C6: no invocation of `save_model` ever writes any file - in particular
the hyperparameters artifact is never produced, so there is nothing to parse
back against the in-memory `Params` mapping. -/
theorem c6_params_artifact_missing (st : TrainerState) (base mfn pfn vfn t : String)
    (fs : FileSys) :
    ((save_model st base mfn pfn vfn t fs).1).files = fs.files := by
  unfold save_model
  cases h : save_dir st base t with
  | error e => rfl
  | ok dir =>
    simp only [ensure_path]
    split
    · rfl
    · rfl

/-- C7: the constructor's result does not depend on the `dev_loader` argument
at all (it is accepted and dropped), and `eval` on a working answers-only
trainer iterates exactly the batches of `self.dataloader` - the training
loader - invoking the model with teacher forcing `False` on each and reaching
the final mean log. -/
theorem c7_eval_dev_loader :
    (∀ (dl : List Inputs) (params : Params) (seed sme pe : ℕ)
        (devA devB : Option (List Inputs)) (vocab : Option Vocab),
        trainerInit dl params seed sme pe devA vocab
          = trainerInit dl params seed sme pe devB vocab)
    ∧ ∀ pplFn : ℚ → ℝ,
        (evalRun pplFn critZero modelFnOne stE).2 = none
        ∧ ((evalRun pplFn critZero modelFnOne stE).1).calls
            = [⟨none, none, [[0]], false⟩, ⟨none, none, [[1]], false⟩]
        ∧ ((evalRun pplFn critZero modelFnOne stE).1).dev_losses = [0, 0]
        ∧ ((evalRun pplFn critZero modelFnOne stE).1).print_info = true := by
  refine ⟨fun dl params seed sme pe devA devB vocab => rfl, fun pplFn => ?_⟩
  refine ⟨?_, ?_, ?_, ?_⟩ <;>
    simp [evalRun, evalGo, evalStep, decomposeEval, stE, stAO, stW, batch_loss,
      lossLoop, lossTerm, maskSelect, critZero, modelFnOne, List.mapM, List.mapM.loop,
      List.get?]

/-- C9: when the model slot holds none of the three variant constants, both
the training epoch loop and the evaluation loop abort on their first batch
with the `TypeError` produced by raising the string
`'Unimplemented model: %s'`: no batch is trained (the state and its histories
are returned unchanged, zero optimization steps) and the eval trace stays
empty with no final log. -/
theorem c9_unimplemented_raises (st : TrainerState) (b : Inputs) (bs : List Inputs)
    (pplFn : ℚ → ℝ) (criterion : Criterion) (modelFn : ModelFn) (rands : ℕ → ℚ)
    (h1 : st.model ≠ ModelSlot.const ModelVariant.LM_ANSWERS)
    (h2 : st.model ≠ ModelSlot.const ModelVariant.LM_QUESTION_ANSWERS)
    (h3 : st.model ≠ ModelSlot.const ModelVariant.LM_QUESTION_ANSWERS_REVIEWS) :
    trainOneEpoch pplFn criterion modelFn rands st (b :: bs)
      = (st, 0, some (PyError.typeErrorRaiseStr
          ("Unimplemented model: " ++ modelSlotStr st.model)))
    ∧ evalRun pplFn criterion modelFn { st with dataloader := b :: bs }
      = (⟨[], [], [], false⟩, some (PyError.typeErrorRaiseStr
          ("Unimplemented model: " ++ modelSlotStr st.model))) := by
  constructor
  · simp [trainOneEpoch, trainGo, decomposeTrain, h1, h2]
  · simp [evalRun, evalGo, decomposeEval, h1, h2]

/-- C9 (witness): a trainer state whose slot holds an `LM` object (as the
constructor briefly does) satisfies the hypotheses, and both loops abort on
a concrete one-batch loader with the string-raise `TypeError`. -/
theorem c9_unimplemented_raises_witness :
    (stC9.model ≠ ModelSlot.const ModelVariant.LM_ANSWERS
      ∧ stC9.model ≠ ModelSlot.const ModelVariant.LM_QUESTION_ANSWERS
      ∧ stC9.model ≠ ModelSlot.const ModelVariant.LM_QUESTION_ANSWERS_REVIEWS)
    ∧ (trainOneEpoch perplexity_from_loss critZero modelFnOne (fun _ => 0) stC9
          (Inputs.ao [[0]] [1] :: [])
        = (stC9, 0, some (PyError.typeErrorRaiseStr
            ("Unimplemented model: " ++ modelSlotStr stC9.model)))
       ∧ evalRun perplexity_from_loss critZero modelFnOne
           { stC9 with dataloader := Inputs.ao [[0]] [1] :: [] }
         = (⟨[], [], [], false⟩, some (PyError.typeErrorRaiseStr
             ("Unimplemented model: " ++ modelSlotStr stC9.model)))) :=
  ⟨⟨by decide, by decide, by decide⟩,
    c9_unimplemented_raises stC9 (Inputs.ao [[0]] [1]) [] perplexity_from_loss critZero
      modelFnOne (fun _ => 0) (by decide) (by decide) (by decide)⟩

/-- C10 (counterexample): on a freshly constructed trainer the first `eval`
call does *not* fail by dereferencing `None`: the `None`-valued model slot
matches no variant branch, so `eval` aborts with the `TypeError` raised by
`raise 'Unimplemented model: %s'` - an error that would occur identically
with a populated model field. -/
theorem c10_counterexample :
    (evalRun perplexity_from_loss critZero modelFnOne st0).2
      = some (PyError.typeErrorRaiseStr "Unimplemented model: None")
    ∧ isNoneDereference (PyError.typeErrorRaiseStr "Unimplemented model: None") = false := by
  constructor
  · rfl
  · rfl

/-- C10 (amended): immediately after `__init__` returns, `model`, `optimizer`
and `params` are `None` (the values assigned earlier are overwritten); the
first `train` call dereferences `None` in `_set_optimizer`
(`self.model.parameters()`), a direct `train_batch` call dereferences `None`
at `self.optimizer.zero_grad()`, while a first `eval` call on a non-empty
loader aborts not with a `None` dereference but with the
unimplemented-variant string-raise `TypeError`. -/
theorem c10_none_fields (b : Inputs) (bs : List Inputs) (params : Params)
    (seed sme pe : ℕ) (devl : Option (List Inputs)) (vocab : Option Vocab)
    (criterion : Criterion) (modelFn : ModelFn) (rand : ℚ) (pplFn : ℚ → ℝ)
    (q : Option Seqs) (r : Option (List Seqs)) (a : Seqs) (l : List ℤ) :
    (trainerInit (b :: bs) params seed sme pe devl vocab).model = ModelSlot.pyNone
    ∧ (trainerInit (b :: bs) params seed sme pe devl vocab).optimizer = none
    ∧ (trainerInit (b :: bs) params seed sme pe devl vocab).params = none
    ∧ set_optimizer (trainerInit (b :: bs) params seed sme pe devl vocab) 1
        = Except.error (PyError.attributeErrorNone "parameters")
    ∧ train_batch criterion modelFn rand
          (trainerInit (b :: bs) params seed sme pe devl vocab) q r a l
        = Except.error (PyError.attributeErrorNone "zero_grad")
    ∧ (evalRun pplFn criterion modelFn
          (trainerInit (b :: bs) params seed sme pe devl vocab)).2
        = some (PyError.typeErrorRaiseStr "Unimplemented model: None") :=
  ⟨rfl, rfl, rfl, rfl, rfl, rfl⟩
